import Mathlib

/-!
Verification development for the MCP chat client
(file src/lib/mcp-client.ts of the mcp-chat repository).

The definitions below are a shallow embedding of the client code:

* MCPErrorL embeds the MCPError shape (message, optional code,
  optional classification kind, optional source context).
* normalizeError embeds MCPClient.normalizeError (lines 86-116):
  note that the early return for an error that already carries an
  explicit classification happens before any message inspection.
* ClientState embeds the mutable fields of MCPClient: the stream
  handle (only its readyState matters to the code), sessionId,
  messageCounter, the messageHandlers map (kept as an association
  list in insertion order; the JS Map is keyed by id), the
  connectionAttempts counter, the isClosing flag and the pending
  reconnection timer (recorded as its delay in milliseconds).
* The two closure shapes ever stored in messageHandlers are the
  initialize-response handler (ensureConnection, lines 307-316) and
  the request handler (sendRequest, lines 387-399); PendingKind tags
  which one an entry is, and initResponseHandler / requestHandler
  embed their bodies as pure functions from the delivered object to
  an outcome.
* Effects records the observable side effects of one synchronous
  code path: handler invocations (notices), calls to the user error
  observer, network operations issued, and a newly scheduled
  reconnection timer.
* esOnerror embeds the stream-level error handler (lines 230-246),
  handleConnectionError lines 118-149, handleError lines 65-84,
  ensureConnectionStart the synchronous prefix of ensureConnection
  (lines 192-220: reuse check, stale teardown, attempt increment,
  stream creation), sendRequestAck the part of sendRequest after a
  successful ensureConnection, parameterised by the text of the
  synchronous POST acknowledgement body (lines 376-438).
* ClientOp / stepOp / runOps give a small-step model of every
  operation in the file that touches messageCounter or
  messageHandlers, used for the id-allocation invariants.
-/

/-- The classification kinds of MCPError.type (line 27 of the source). -/
inductive ErrType
  | connection
  | protocol
  | timeout
  | network
  | parse
  | sdk
  deriving DecidableEq, Repr

/-- The MCPError shape: an Error with optional code, kind and source. -/
structure MCPErrorL where
  message : String
  code : Option Int := none
  type : Option ErrType := none
  source : Option String := none
  deriving DecidableEq, Repr

/-- Substring occurrence on character lists (semantics of the
JavaScript String.prototype.includes used by normalizeError). -/
def hasSubList (p : List Char) : List Char → Bool
  | [] => p.isEmpty
  | c :: t => p.isPrefixOf (c :: t) || hasSubList p t

/-- s contains pat as a contiguous substring. -/
def strContains (s pat : String) : Bool :=
  hasSubList pat.data s.data

/-- MCPClient.normalizeError, lines 86-116 of the source.  The check
for an already-present explicit classification is the first thing the
function does; only an unclassified error reaches the keyword rules. -/
def normalizeError (error : MCPErrorL) (context : String) : MCPErrorL :=
  if error.type.isSome then
    error
  else
    let e := { error with source := some context }
    if strContains error.message "timeout" then
      { e with type := some ErrType.timeout, code := some (-32000) }
    else if strContains error.message "network" || strContains error.message "fetch" then
      { e with type := some ErrType.network, code := some (-32001) }
    else if strContains error.message "parse" then
      { e with type := some ErrType.parse, code := some (-32700) }
    else if strContains context "SSE" || strContains context "connection" then
      { e with type := some ErrType.connection, code := some (-32002) }
    else if strContains context "sdk" then
      { e with type := some ErrType.sdk, code := some (-32099) }
    else
      { e with type := some ErrType.protocol, code := some (-32603) }

/-- readyState of the EventSource handle. -/
inductive ReadyState
  | connecting
  | openState
  | closedState
  deriving DecidableEq, Repr

/-- Which of the two handler closures a messageHandlers entry holds. -/
inductive PendingKind
  | initHandshake
  | request
  deriving DecidableEq, Repr

/-- The mutable fields of MCPClient (lines 32-39 of the source). -/
structure ClientState where
  es : Option ReadyState := none
  sessionId : Option String := none
  messageCounter : Nat := 0
  messageHandlers : List (Nat × PendingKind) := []
  connectionAttempts : Nat := 0
  isClosing : Bool := false
  reconnectTimeout : Option Nat := none
  deriving DecidableEq, Repr

/-- The error member of a delivered message object, or of the object
passed to a handler by the connection-error paths: a message plus an
optional numeric code (the opaque data payload is not modeled). -/
structure RpcError where
  message : String
  code : Option Int := none
  deriving DecidableEq, Repr

/-- The result member of a delivered message, restricted to the one
field the client ever inspects on it (result.protocolVersion);
absence of the field is none. -/
structure ResultV where
  protocolVersion : Option String := none
  deriving DecidableEq, Repr

/-- The object passed to a stored handler: a parsed stream message
(id, error, result all optional) or the synthetic object with only an
error member built by the connection-error paths. -/
structure HandlerInput where
  id : Option Nat := none
  error : Option RpcError := none
  result : Option ResultV := none
  deriving DecidableEq, Repr

/-- Outcome of the request handler for the pending caller. -/
inductive ReqOutcome
  | rejected (e : MCPErrorL)
  | resolved (r : Option ResultV)
  deriving DecidableEq, Repr

/-- The handler registered by sendRequest (lines 387-399): a truthy
error member rejects with a fresh unclassified Error built from its
message and code; anything else resolves with the result member,
present or not. -/
def requestHandler (data : HandlerInput) : ReqOutcome :=
  match data.error with
  | some e => ReqOutcome.rejected { message := e.message, code := e.code }
  | none => ReqOutcome.resolved data.result

/-- Outcome of the initialize-response handler for the negotiation
promise. -/
inductive InitOutcome
  | rejectedI (msg : String)
  | resolvedI
  | pendingI
  deriving DecidableEq, Repr

/-- What one invocation of the initialize-response handler does: did
it cancel the 30-second initialization timer, and how did it settle
(or not settle) the negotiation promise. -/
structure InitHandlerResult where
  timeoutCleared : Bool
  outcome : InitOutcome
  deriving DecidableEq, Repr

/-- The handler registered for the initialize response
(ensureConnection, lines 307-316): it first unconditionally clears
the 30-second timer, then rejects on an error member, resolves when
result.protocolVersion is present, and otherwise does nothing. -/
def initResponseHandler (data : HandlerInput) : InitHandlerResult :=
  { timeoutCleared := true
    outcome :=
      match data.error with
      | some e => InitOutcome.rejectedI e.message
      | none =>
        match data.result with
        | some r =>
          match r.protocolVersion with
          | some _ => InitOutcome.resolvedI
          | none => InitOutcome.pendingI
        | none => InitOutcome.pendingI }

/-- The value of data.result?.protocolVersion for a delivered message. -/
def resultProtocolVersion (d : HandlerInput) : Option String :=
  d.result.bind fun r => r.protocolVersion

/-- Network operations the client can issue. -/
inductive NetOp
  | openStream
  | postMessage
  deriving DecidableEq, Repr

/-- Observable side effects of one synchronous code path. -/
structure Effects where
  notices : List (Nat × HandlerInput) := []
  observerCalls : List MCPErrorL := []
  netOps : List NetOp := []
  timerScheduled : Option Nat := none
  deriving DecidableEq, Repr

/-- The error object built inside es.onerror (lines 239-241): message
SSE Connection error, code -32000, and no explicit classification. -/
def sseConnectionError : RpcError :=
  { message := "SSE Connection error", code := some (-32000) }

/-- The same error as the MCPErrorL the request handler rebuilds from
it when rejecting a pending caller. -/
def sseErrL : MCPErrorL :=
  { message := "SSE Connection error", code := some (-32000) }

/-- The object handed to every pending handler by es.onerror. -/
def sseInput : HandlerInput :=
  { error := some sseConnectionError }

/-- es.onerror, lines 230-246 of the source: every pending handler is
invoked with an object carrying sseConnectionError, then the map is
cleared.  Nothing else in the body touches the client state, calls
handleError or the user observer, or schedules a timer. -/
def esOnerror (s : ClientState) : ClientState × Effects :=
  ({ s with messageHandlers := [] },
   { notices := s.messageHandlers.map fun p => (p.1, sseInput) })

/-- MCPClient.handleConnectionError, lines 118-149: close and discard
the stream, discard the sessionId, invoke every pending handler with
the error, clear the map, and when connectionAttempts is below 3 and
the client is not closing schedule a reconnection after
min(1000 * 2 ^ connectionAttempts, 10000) milliseconds. -/
def handleConnectionError (s : ClientState) (e : MCPErrorL) : ClientState × Effects :=
  let s1 : ClientState := { s with es := none, sessionId := none, messageHandlers := [] }
  let notices := s.messageHandlers.map fun p =>
    (p.1, ({ error := some { message := e.message, code := e.code } } : HandlerInput))
  if s.connectionAttempts < 3 ∧ ¬s.isClosing then
    let delay := min (1000 * 2 ^ s.connectionAttempts) 10000
    ({ s1 with reconnectTimeout := some delay },
     { notices := notices, timerScheduled := some delay })
  else
    (s1, { notices := notices })

/-- MCPClient.handleError, lines 65-84: normalize, invoke the user
observer with the normalized error, and when the normalized error is
connection-kind and the client is not closing run
handleConnectionError.  Returns the normalized error, which the
source then rethrows at every call site. -/
def handleError (s : ClientState) (error : MCPErrorL) (context : String) :
    ClientState × Effects × MCPErrorL :=
  let mcpError := normalizeError error context
  if mcpError.type = some ErrType.connection ∧ ¬s.isClosing then
    let r := handleConnectionError s mcpError
    (r.1, { r.2 with observerCalls := [mcpError] }, mcpError)
  else
    (s, { observerCalls := [mcpError] }, mcpError)

/-- The synchronous prefix of MCPClient.ensureConnection, lines
192-220: when the stream handle exists and is open return at once
with no effect; otherwise close and discard any existing handle
together with the sessionId and clear the pending map (lines 197-207,
which invoke no pending completion), increment connectionAttempts,
and open a new stream. -/
def ensureConnectionStart (s : ClientState) : ClientState × Effects :=
  if s.es = some ReadyState.openState then
    (s, {})
  else
    let s1 : ClientState :=
      if s.es.isSome then
        { s with es := none, sessionId := none, messageHandlers := [] }
      else s
    let s2 : ClientState :=
      { s1 with connectionAttempts := s1.connectionAttempts + 1,
                es := some ReadyState.connecting }
    (s2, { netOps := [NetOp.openStream] })

/-- The part of MCPClient.sendRequest after ensureConnection has
succeeded (lines 376-438), parameterised by the text of the
synchronous POST acknowledgement body: allocate the next id, register
the request handler under it, POST; when the body is exactly Accepted
return with the promise outstanding (third component none), otherwise
throw, which lands in the catch block and runs handleError with
context sendRequest(method); the thrown normalized error is the third
component.  Nothing on the throw path deletes the registered handler. -/
def sendRequestAck (s : ClientState) (method ackText : String) :
    ClientState × Effects × Option MCPErrorL :=
  let id := s.messageCounter
  let s1 : ClientState :=
    { s with messageCounter := s.messageCounter + 1,
             messageHandlers := s.messageHandlers ++ [(id, PendingKind.request)] }
  if ackText = "Accepted" then
    (s1, { netOps := [NetOp.postMessage] }, none)
  else
    let raw : MCPErrorL := { message := "Unexpected response: " ++ ackText }
    let r := handleError s1 raw ("sendRequest(" ++ method ++ ")")
    (r.1, { r.2.1 with netOps := [NetOp.postMessage] }, some r.2.2)

/-- The start of an ensureConnection attempt as it affects the retry
counter: line 209 increments connectionAttempts before the stream is
created, so a failure during that attempt observes the incremented
value. -/
def connectAttemptStart (s : ClientState) : ClientState :=
  { s with connectionAttempts := s.connectionAttempts + 1 }

/-- A connection-kind failure of a connect attempt, as assumed by the
reconnection claims: an error already classified as connection. -/
def connFailureError : MCPErrorL :=
  { message := "stream closed", code := some (-32002), type := some ErrType.connection }

/-- The delays of the reconnection timers scheduled over a run of
consecutive failing connect attempts: each iteration starts an
attempt (incrementing connectionAttempts, line 209), fails it with a
connection-kind error, and runs handleError; when a timer was
scheduled the timer fires and the next attempt starts, otherwise no
further automatic attempt exists.  The fuel bounds the number of
failure opportunities considered. -/
def reconnectDelays : Nat → ClientState → List Nat
  | 0, _ => []
  | Nat.succ n, s =>
    let s1 := connectAttemptStart s
    let r := handleError s1 connFailureError "ensureConnection"
    match r.2.1.timerScheduled with
    | some d => d :: reconnectDelays n r.1
    | none => []

/-- A connected client state: open stream, a session id, fresh
counters. -/
def conn0 : ClientState :=
  { es := some ReadyState.openState, sessionId := some "abc" }

/-- A connected state with two pending requests, ids 0 and 1. -/
def c3state : ClientState :=
  { es := some ReadyState.openState, sessionId := some "sess",
    messageCounter := 2,
    messageHandlers := [(0, PendingKind.request), (1, PendingKind.request)] }

/-- A stale state: the stream handle exists but is closed, a session
id is still recorded, and one request is pending under id 3. -/
def c4state : ClientState :=
  { es := some ReadyState.closedState, sessionId := some "sess",
    messageCounter := 5,
    messageHandlers := [(3, PendingKind.request)] }

/-- An error that already carries an explicit classification and
whose message mentions timeout. -/
def c5err : MCPErrorL :=
  { message := "request timeout", code := some (-32002), type := some ErrType.connection }

/-- The classification order exactly as the claim states it: message
keywords first, then the already-classified check, then context
keywords.  Written from the words of the claim, for comparison with
normalizeError. -/
def claimOrderClassify (e : MCPErrorL) (context : String) : Option ErrType :=
  if strContains e.message "timeout" then some ErrType.timeout
  else if strContains e.message "network" || strContains e.message "fetch" then some ErrType.network
  else if strContains e.message "parse" then some ErrType.parse
  else if e.type.isSome then e.type
  else if strContains context "SSE" || strContains context "connection" then some ErrType.connection
  else if strContains context "sdk" then some ErrType.sdk
  else some ErrType.protocol

/-- The keyword rules applied to an error with no prior
classification, with their fixed codes, as the amended claim states
them.  Written from the words of the amended claim, for comparison
with normalizeError. -/
def classifyFresh (message context : String) : ErrType × Int :=
  if strContains message "timeout" then (ErrType.timeout, -32000)
  else if strContains message "network" || strContains message "fetch" then (ErrType.network, -32001)
  else if strContains message "parse" then (ErrType.parse, -32700)
  else if strContains context "SSE" || strContains context "connection" then (ErrType.connection, -32002)
  else if strContains context "sdk" then (ErrType.sdk, -32099)
  else (ErrType.protocol, -32603)

/-- Every operation in the source that touches messageCounter or
messageHandlers: the two id allocations (ensureConnection line 306,
sendRequest line 377, each registering a handler under the fresh id),
delivery of a matching message (onmessage, line 265), a request
timeout firing (line 382), the stream error handler (line 245), a
connection error (line 130 together with lines 120-124), the stale
teardown inside ensureConnection (lines 198-207) and close (lines
454-471). -/
inductive ClientOp
  | allocInit
  | allocRequest
  | deliver (id : Nat)
  | timeoutFire (id : Nat)
  | streamError
  | connError
  | staleTeardown
  | closeOp
  deriving DecidableEq, Repr

/-- Map.delete on the association list. -/
def removeHandler (hs : List (Nat × PendingKind)) (id : Nat) : List (Nat × PendingKind) :=
  hs.filter fun p => p.1 != id

/-- Effect of one operation on the counter and the pending map. -/
def stepOp (s : ClientState) : ClientOp → ClientState
  | ClientOp.allocInit =>
    { s with messageCounter := s.messageCounter + 1,
             messageHandlers := s.messageHandlers ++ [(s.messageCounter, PendingKind.initHandshake)] }
  | ClientOp.allocRequest =>
    { s with messageCounter := s.messageCounter + 1,
             messageHandlers := s.messageHandlers ++ [(s.messageCounter, PendingKind.request)] }
  | ClientOp.deliver id => { s with messageHandlers := removeHandler s.messageHandlers id }
  | ClientOp.timeoutFire id => { s with messageHandlers := removeHandler s.messageHandlers id }
  | ClientOp.streamError => { s with messageHandlers := [] }
  | ClientOp.connError => { s with es := none, sessionId := none, messageHandlers := [] }
  | ClientOp.staleTeardown => { s with es := none, sessionId := none, messageHandlers := [] }
  | ClientOp.closeOp =>
    { s with es := none, sessionId := none, messageHandlers := [], reconnectTimeout := none }

/-- Run a sequence of operations. -/
def runOps (s : ClientState) : List ClientOp → ClientState
  | [] => s
  | op :: ops => runOps (stepOp s op) ops

/-- Whether an operation allocates a request id. -/
def isAlloc : ClientOp → Bool
  | ClientOp.allocInit => true
  | ClientOp.allocRequest => true
  | _ => false

/-- The ids handed out by the allocations of a run, in order. -/
def allocatedIds (s : ClientState) : List ClientOp → List Nat
  | [] => []
  | op :: ops =>
    if isAlloc op then s.messageCounter :: allocatedIds (stepOp s op) ops
    else allocatedIds (stepOp s op) ops

/-- Well-formedness of the pending map: keys are distinct and all
below the counter. -/
def handlersWF (s : ClientState) : Prop :=
  (s.messageHandlers.map Prod.fst).Nodup ∧
  ∀ p ∈ s.messageHandlers, p.1 < s.messageCounter

/-- C1 counterexample: over four consecutive failing connect attempts
from a fresh client, the scheduled reconnection delays are 2000ms and
4000ms only, not the 1000ms, 2000ms, 4000ms sequence the claim
states; no timer at all follows the third failure. -/
theorem c1_counterexample :
    reconnectDelays 4 ({} : ClientState) = [2000, 4000] ∧
    reconnectDelays 4 ({} : ClientState) ≠ [1000, 2000, 4000] := by
  exact ⟨rfl, by decide⟩

/-- C1 (amended): connectionAttempts is incremented before each
attempt, so the delay scheduled after failed attempt k is
min(1000 * 2 ^ k, 10000): 2000ms after the first failure and 4000ms
after the second; after the third consecutive connection failure the
guard connectionAttempts < 3 fails and no reconnection timer is
scheduled, whatever the error. -/
theorem c1_backoff (n : Nat) (h : 3 ≤ n) :
    reconnectDelays n ({} : ClientState) = [2000, 4000] ∧
    ∀ e : MCPErrorL,
      (handleConnectionError { connectionAttempts := 3 } e).2.timerScheduled = none := by
  constructor
  · obtain ⟨m, rfl⟩ := Nat.exists_eq_add_of_le h
    rw [Nat.add_comm]
    rfl
  · intro e
    rfl

/-- C1 witness: the amended backoff statement evaluated over three
failure opportunities. -/
theorem c1_backoff_witness :
    reconnectDelays 3 ({} : ClientState) = [2000, 4000] :=
  (c1_backoff 3 (by decide)).1

/-- C2 counterexample: with acknowledgement body Busy the call is
rejected with a protocol-kind error, but the fresh PendingRequest
entry (id 0) is still in the pending map afterwards, contrary to the
claim that it is removed immediately; moreover an acknowledgement
body whose text contains the word timeout is classified as timeout,
not protocol. -/
theorem c2_counterexample :
    (sendRequestAck conn0 "tools/list" "Busy").1.messageHandlers
      = [(0, PendingKind.request)] ∧
    ((sendRequestAck conn0 "tools/list" "Busy").2.2.map MCPErrorL.type)
      = some (some ErrType.protocol) ∧
    ((sendRequestAck conn0 "tools/list" "timeout").2.2.map MCPErrorL.type)
      = some (some ErrType.timeout) := by
  refine ⟨rfl, rfl, rfl⟩

/-- C2 (amended): for any acknowledgement text other than Accepted,
the call rejects immediately with the error normalizeError assigns to
the message built from the text (protocol-kind for a text such as
Busy that contains no classification keyword), and the PendingRequest
entry registered for the allocated id is still present in the pending
map after the rejection, whenever the classified error is not
connection-kind. -/
theorem c2_pending_not_removed (s : ClientState) (method ackText : String)
    (h1 : ackText ≠ "Accepted")
    (h2 : (normalizeError { message := "Unexpected response: " ++ ackText }
            ("sendRequest(" ++ method ++ ")")).type ≠ some ErrType.connection) :
    (sendRequestAck s method ackText).2.2 =
      some (normalizeError { message := "Unexpected response: " ++ ackText }
            ("sendRequest(" ++ method ++ ")")) ∧
    (s.messageCounter, PendingKind.request) ∈
      (sendRequestAck s method ackText).1.messageHandlers := by
  simp only [sendRequestAck, handleError]
  rw [if_neg h1]
  rw [if_neg (fun hc => h2 hc.1)]
  exact ⟨rfl, List.mem_append_right _ (List.mem_cons_self _ _)⟩

/-- C2 witness: the amended statement at the connected state with
method tools/list and acknowledgement body Busy. -/
theorem c2_pending_not_removed_witness :
    (sendRequestAck conn0 "tools/list" "Busy").2.2 =
      some (normalizeError { message := "Unexpected response: " ++ "Busy" }
            ("sendRequest(" ++ "tools/list" ++ ")")) ∧
    (conn0.messageCounter, PendingKind.request) ∈
      (sendRequestAck conn0 "tools/list" "Busy").1.messageHandlers :=
  c2_pending_not_removed conn0 "tools/list" "Busy" (by decide) (by decide)

/-- C3 counterexample: with two requests pending, the stream error
handler rejects both callers with an error carrying no classification
kind at all and the numeric code -32000 (which is the timeout code,
not the connection code -32002), so neither caller receives a
connection-kind classified error; the pending map is empty
afterwards. -/
theorem c3_counterexample :
    (esOnerror c3state).2.notices.map (fun p => requestHandler p.2) =
      [ReqOutcome.rejected sseErrL, ReqOutcome.rejected sseErrL] ∧
    sseErrL.type ≠ some ErrType.connection ∧
    sseErrL.code ≠ some (-32002) ∧
    (esOnerror c3state).1.messageHandlers = [] := by
  decide

/-- C3 (amended): whenever the stream emits a connection-level error,
every pending handler is invoked with the object carrying the error
built inside es.onerror (message SSE Connection error, code -32000),
each pending caller is therefore rejected with an unclassified error
carrying that message and code (not a connection-kind classified
error), and the pending map is empty afterwards. -/
theorem c3_onerror_rejects_all (s : ClientState) :
    (esOnerror s).1.messageHandlers = [] ∧
    (esOnerror s).2.notices = s.messageHandlers.map (fun p => (p.1, sseInput)) ∧
    requestHandler sseInput = ReqOutcome.rejected sseErrL ∧
    sseErrL.type = none ∧
    sseErrL.code = some (-32000) := by
  exact ⟨rfl, rfl, rfl, rfl, rfl⟩

/-- C4 counterexample: at a stale state holding one pending request
(id 3), the teardown inside ensureConnection clears the pending map
and discards the sessionId while invoking no pending completion at
all: the pending caller is dropped without being failed. -/
theorem c4_counterexample :
    c4state.messageHandlers = [(3, PendingKind.request)] ∧
    (ensureConnectionStart c4state).2.notices = [] ∧
    (ensureConnectionStart c4state).1.messageHandlers = [] ∧
    (ensureConnectionStart c4state).1.sessionId = none := by
  decide

/-- C4 (amended): when ensureConnection finds a stale (non-open)
stream handle it closes the stream, discards the sessionId and clears
the pending map, but it invokes no pending completion and calls no
observer: pending callers are dropped silently and only fail later
through their own 30-second timeouts. -/
theorem c4_stale_teardown (s : ClientState) (h1 : s.es.isSome = true)
    (h2 : s.es ≠ some ReadyState.openState) :
    (ensureConnectionStart s).1.messageHandlers = [] ∧
    (ensureConnectionStart s).1.sessionId = none ∧
    (ensureConnectionStart s).1.es = some ReadyState.connecting ∧
    (ensureConnectionStart s).2.notices = [] ∧
    (ensureConnectionStart s).2.observerCalls = [] := by
  unfold ensureConnectionStart
  rw [if_neg h2, if_pos h1]
  exact ⟨rfl, rfl, rfl, rfl, rfl⟩

/-- C4 witness: the amended teardown statement at the stale state
with one pending request. -/
theorem c4_stale_teardown_witness :
    (ensureConnectionStart c4state).1.messageHandlers = [] ∧
    (ensureConnectionStart c4state).1.sessionId = none :=
  ⟨(c4_stale_teardown c4state rfl (by decide)).1,
   (c4_stale_teardown c4state rfl (by decide)).2.1⟩

/-- Helper: on an error with no prior classification, normalizeError
assigns the source context and exactly the kind and code given by the
keyword rules of classifyFresh. -/
theorem normalizeError_fresh (e : MCPErrorL) (context : String) (h : e.type = none) :
    normalizeError e context =
      { e with source := some context,
               type := some (classifyFresh e.message context).1,
               code := some (classifyFresh e.message context).2 } := by
  unfold normalizeError classifyFresh
  have hcond : ¬((none : Option ErrType).isSome = true) := by simp
  rw [h, if_neg hcond]
  split_ifs <;> rfl

/-- C5 counterexample: an error that already carries the explicit
classification connection and whose message mentions timeout keeps
its classification under normalizeError, while the rule order stated
by the claim (message keywords before the explicit-classification
check) would assign timeout: the two orders disagree at this input. -/
theorem c5_counterexample :
    claimOrderClassify c5err "ctx" = some ErrType.timeout ∧
    (normalizeError c5err "ctx").type = some ErrType.connection ∧
    (normalizeError c5err "ctx").type ≠ claimOrderClassify c5err "ctx" := by
  decide

/-- C5 (amended): the rule that an error already carrying an explicit
classification keeps it comes first; only an unclassified error is
matched against the remaining rules in order (message timeout,
message network or fetch, message parse, context SSE or connection,
context sdk, else protocol) with the numeric codes -32000, -32001,
-32700, -32002, -32099, -32603. -/
theorem c5_classification_order (e : MCPErrorL) (context : String) :
    normalizeError e context =
      if e.type.isSome then e
      else { e with source := some context,
                    type := some (classifyFresh e.message context).1,
                    code := some (classifyFresh e.message context).2 } := by
  by_cases h1 : e.type.isSome = true
  · rw [if_pos h1]
    unfold normalizeError
    rw [if_pos h1]
  · rw [if_neg h1]
    have ht : e.type = none := by
      cases h : e.type with
      | none => rfl
      | some t => rw [h] at h1; simp at h1
    exact normalizeError_fresh e context ht

/-- C6 counterexample: delivering an initialize response for the
handshake id with neither a result.protocolVersion field nor an error
field leaves the negotiation promise pending, but the handler has
already cleared the outer 30-second initialization timer
(timeoutCleared = true), so that timer cannot eventually fail the
handshake as the claim states: nothing ever settles it. -/
theorem c6_counterexample :
    initResponseHandler { id := some 0 } =
      { timeoutCleared := true, outcome := InitOutcome.pendingI } := by
  decide

/-- C6 (amended): any initialize response carrying neither an error
field nor a result.protocolVersion field leaves the negotiation
promise pending, and the handler has already cancelled the outer
30-second initialization timer on delivery, so the handshake is never
failed by that timer: it hangs indefinitely. -/
theorem c6_init_pending (d : HandlerInput) (h1 : d.error = none)
    (h2 : resultProtocolVersion d = none) :
    initResponseHandler d = { timeoutCleared := true, outcome := InitOutcome.pendingI } := by
  unfold initResponseHandler
  rw [h1]
  cases hr : d.result with
  | none => rfl
  | some r =>
    obtain ⟨pv⟩ := r
    have hpv : pv = none := by
      unfold resultProtocolVersion at h2
      rw [hr] at h2
      simpa using h2
    subst hpv
    rfl

/-- C6 witness: the amended statement at a response that has a result
object without a protocolVersion field. -/
theorem c6_init_pending_witness :
    initResponseHandler { id := some 0, result := some { protocolVersion := none } } =
      { timeoutCleared := true, outcome := InitOutcome.pendingI } :=
  c6_init_pending { id := some 0, result := some { protocolVersion := none } } rfl rfl

/-- C7 counterexample: a matched response message carrying neither a
result nor an error member is resolved successfully with an absent
result by the request handler, so the facade can resolve a call with
an ambiguous result, contrary to the claim. -/
theorem c7_counterexample :
    requestHandler { id := some 5 } = ReqOutcome.resolved none := by
  decide

/-- C7 (amended): a matched message without an error member resolves
the pending caller with whatever result member it carries, including
none at all (an ambiguous successful resolution); an unclassified
error passing through the normalization the facade applies on its
error path always acquires both a kind and a numeric code. -/
theorem c7_facade_outcomes (d : HandlerInput) (e : MCPErrorL) (context : String)
    (h1 : d.error = none) (h2 : e.type = none) :
    requestHandler d = ReqOutcome.resolved d.result ∧
    (normalizeError e context).type.isSome = true ∧
    (normalizeError e context).code.isSome = true := by
  refine ⟨?_, ?_, ?_⟩
  · unfold requestHandler
    rw [h1]
  · rw [normalizeError_fresh e context h2]
    rfl
  · rw [normalizeError_fresh e context h2]
    rfl

/-- C7 witness: the amended statement at a matched message with
neither member and an unclassified error normalized in the listTools
context. -/
theorem c7_facade_outcomes_witness :
    requestHandler { id := some 5 } = ReqOutcome.resolved none ∧
    (normalizeError { message := "boom" } "listTools").type.isSome = true :=
  ⟨(c7_facade_outcomes { id := some 5 } { message := "boom" } "listTools" rfl rfl).1,
   (c7_facade_outcomes { id := some 5 } { message := "boom" } "listTools" rfl rfl).2.1⟩

/-- C8 (confirmed): when the stream handle exists and is open,
ensureConnection returns at once: the state is unchanged, no network
operation is issued, and a second call in succession does the same,
so the stream stays open and sessionId and connectionAttempts are
untouched. -/
theorem c8_idempotent (s : ClientState) (h : s.es = some ReadyState.openState) :
    ensureConnectionStart s = (s, ({} : Effects)) ∧
    ensureConnectionStart (ensureConnectionStart s).1 = (s, ({} : Effects)) ∧
    (ensureConnectionStart s).2.netOps = [] ∧
    (ensureConnectionStart s).1.connectionAttempts = s.connectionAttempts ∧
    (ensureConnectionStart s).1.sessionId = s.sessionId ∧
    (ensureConnectionStart s).1.es = s.es := by
  have h1 : ensureConnectionStart s = (s, ({} : Effects)) := by
    unfold ensureConnectionStart
    rw [if_pos h]
  refine ⟨h1, ?_, ?_, ?_, ?_, ?_⟩
  · rw [h1]; exact h1
  · rw [h1]
  · rw [h1]
  · rw [h1]
  · rw [h1]

/-- C8 witness: idempotence evaluated at the connected state. -/
theorem c8_idempotent_witness :
    ensureConnectionStart conn0 = (conn0, ({} : Effects)) :=
  (c8_idempotent conn0 rfl).1

/-- C10 (confirmed): the stream error handler clears the pending map
after invoking every pending handler with the stream error, and
changes nothing else: the stream handle, sessionId,
connectionAttempts, isClosing and the reconnection timer are all
untouched, the user error observer is not called, no network
operation is issued and no reconnection timer is scheduled. -/
theorem c10_onerror_frame (s : ClientState) :
    (esOnerror s).1 = { s with messageHandlers := [] } ∧
    (esOnerror s).1.es = s.es ∧
    (esOnerror s).1.sessionId = s.sessionId ∧
    (esOnerror s).1.connectionAttempts = s.connectionAttempts ∧
    (esOnerror s).1.isClosing = s.isClosing ∧
    (esOnerror s).1.reconnectTimeout = s.reconnectTimeout ∧
    (esOnerror s).2.observerCalls = [] ∧
    (esOnerror s).2.timerScheduled = none ∧
    (esOnerror s).2.netOps = [] ∧
    (esOnerror s).2.notices = s.messageHandlers.map (fun p => (p.1, sseInput)) :=
  ⟨rfl, rfl, rfl, rfl, rfl, rfl, rfl, rfl, rfl, rfl⟩

/-- Helper: no operation ever decreases the id counter. -/
theorem stepOp_counter_ge (s : ClientState) (op : ClientOp) :
    s.messageCounter ≤ (stepOp s op).messageCounter := by
  cases op <;> simp [stepOp]

/-- Helper: an allocation advances the counter by exactly one. -/
theorem stepOp_counter_alloc (s : ClientState) (op : ClientOp) (ha : isAlloc op = true) :
    (stepOp s op).messageCounter = s.messageCounter + 1 := by
  cases op <;> simp [stepOp] <;> simp [isAlloc] at ha

/-- Helper: the counter after a run is the counter before plus the
number of allocations: nothing in the source ever resets it. -/
theorem runOps_counter (ops : List ClientOp) : ∀ s : ClientState,
    (runOps s ops).messageCounter = s.messageCounter + ops.countP isAlloc := by
  induction ops with
  | nil => intro s; simp [runOps, List.countP_nil]
  | cons op ops ih =>
    intro s
    show (runOps (stepOp s op) ops).messageCounter = _
    rw [ih, List.countP_cons]
    cases op <;> simp [stepOp, isAlloc] <;> omega

/-- Helper: every id handed out during a run is at least the counter
at the start of the run. -/
theorem allocatedIds_ge (ops : List ClientOp) : ∀ (s : ClientState) (x : Nat),
    x ∈ allocatedIds s ops → s.messageCounter ≤ x := by
  induction ops with
  | nil => intro s x hx; simp [allocatedIds] at hx
  | cons op ops ih =>
    intro s x hx
    rw [allocatedIds] at hx
    by_cases ha : isAlloc op = true
    · rw [if_pos ha] at hx
      rcases List.mem_cons.mp hx with h | h
      · exact Nat.le_of_eq h.symm
      · exact le_trans (stepOp_counter_ge s op) (ih _ x h)
    · rw [if_neg ha] at hx
      exact le_trans (stepOp_counter_ge s op) (ih _ x hx)

/-- Helper: the ids handed out during a run are strictly increasing. -/
theorem allocatedIds_pairwise (ops : List ClientOp) : ∀ s : ClientState,
    (allocatedIds s ops).Pairwise (· < ·) := by
  induction ops with
  | nil => intro s; simp [allocatedIds]
  | cons op ops ih =>
    intro s
    rw [allocatedIds]
    by_cases ha : isAlloc op = true
    · rw [if_pos ha]
      refine List.pairwise_cons.mpr ⟨?_, ih _⟩
      intro x hx
      have hge := allocatedIds_ge ops (stepOp s op) x hx
      have hstep := stepOp_counter_alloc s op ha
      omega
    · rw [if_neg ha]
      exact ih _

/-- Helper: every operation preserves well-formedness of the pending
map (distinct keys, all keys below the counter). -/
theorem handlersWF_step (s : ClientState) (op : ClientOp) (h : handlersWF s) :
    handlersWF (stepOp s op) := by
  obtain ⟨hnd, hlt⟩ := h
  cases op with
  | allocInit =>
    constructor
    · simp only [stepOp, List.map_append, List.map_cons, List.map_nil]
      refine List.Nodup.append hnd (List.nodup_singleton _) ?_
      intro a ha hb
      simp only [List.mem_singleton] at hb
      subst hb
      obtain ⟨p, hp, hfst⟩ := List.mem_map.mp ha
      have := hlt p hp
      omega
    · intro p hp
      simp only [stepOp, List.mem_append, List.mem_singleton] at hp
      simp only [stepOp]
      rcases hp with hp | hp
      · have := hlt p hp; omega
      · subst hp; simp
  | allocRequest =>
    constructor
    · simp only [stepOp, List.map_append, List.map_cons, List.map_nil]
      refine List.Nodup.append hnd (List.nodup_singleton _) ?_
      intro a ha hb
      simp only [List.mem_singleton] at hb
      subst hb
      obtain ⟨p, hp, hfst⟩ := List.mem_map.mp ha
      have := hlt p hp
      omega
    · intro p hp
      simp only [stepOp, List.mem_append, List.mem_singleton] at hp
      simp only [stepOp]
      rcases hp with hp | hp
      · have := hlt p hp; omega
      · subst hp; simp
  | deliver id =>
    constructor
    · simp only [stepOp, removeHandler]
      exact List.Nodup.sublist ((List.filter_sublist _).map Prod.fst) hnd
    · intro p hp
      simp only [stepOp, removeHandler] at hp
      exact hlt p (List.mem_of_mem_filter hp)
  | timeoutFire id =>
    constructor
    · simp only [stepOp, removeHandler]
      exact List.Nodup.sublist ((List.filter_sublist _).map Prod.fst) hnd
    · intro p hp
      simp only [stepOp, removeHandler] at hp
      exact hlt p (List.mem_of_mem_filter hp)
  | streamError =>
    exact ⟨List.nodup_nil, by intro p hp; simp [stepOp] at hp⟩
  | connError =>
    exact ⟨List.nodup_nil, by intro p hp; simp [stepOp] at hp⟩
  | staleTeardown =>
    exact ⟨List.nodup_nil, by intro p hp; simp [stepOp] at hp⟩
  | closeOp =>
    exact ⟨List.nodup_nil, by intro p hp; simp [stepOp] at hp⟩

/-- Helper: well-formedness is preserved by whole runs. -/
theorem runOps_WF (ops : List ClientOp) : ∀ s : ClientState,
    handlersWF s → handlersWF (runOps s ops) := by
  induction ops with
  | nil => intro s h; exact h
  | cons op ops ih => intro s h; exact ih _ (handlersWF_step s op h)

/-- C9 (confirmed): starting from a fresh client, over any sequence
of operations the allocated request ids (handshake and call ids
alike) are strictly increasing, hence never reused; the pending map
always has distinct keys, so it holds at most one PendingRequest per
id; and the counter equals the number of allocations performed, so it
is never reset during the client lifetime — only a brand-new client
starts again from zero. -/
theorem c9_request_ids (ops : List ClientOp) :
    (allocatedIds {} ops).Pairwise (· < ·) ∧
    ((runOps {} ops).messageHandlers.map Prod.fst).Nodup ∧
    (runOps {} ops).messageCounter = ops.countP isAlloc := by
  refine ⟨allocatedIds_pairwise ops {}, ?_, ?_⟩
  · exact (runOps_WF ops {} ⟨List.nodup_nil, by intro p hp; simp at hp⟩).1
  · have := runOps_counter ops {}
    simpa using this
